import Mathlib

/-!
A shallow embedding of the `us-labor-dashboard` pipeline.

The repository has two components connected by one persisted file:
`get_data.py` (the Fetcher: one HTTP POST to the BLS API, a pandas
reshape, a CSV write) and `app.py` (the Dashboard: load the CSV, compute
summary cards, filter, chart).  Pure functions are translated directly;
the file system is passed explicitly as an `Option` of the persisted
table; Python exceptions become `Except String`.  Dates are represented
by their month index `year * 12 + month`, which is order-isomorphic to
the first-of-month timestamps `pd.to_datetime` produces for the
`"YYYY-MM-01"` strings the Fetcher builds.  Exact rationals stand in for
the float values; the fixed-point formatting of `f"{v:.1f}"` &c. is
modelled with round-half-to-even on the exact value, which agrees with
CPython's correctly-rounded float formatting at every value the claims
touch.
-/

namespace LaborDash

/-- One observation in a series as returned by the API: the fields
`year`, `period`, `value` of each element of `series["data"]`, all
strings in the JSON payload. -/
structure DataItem where
  year : String
  period : String
  value : String
deriving DecidableEq, Repr

/-- One element of `Results.series`: `seriesID` plus its `data[]`. -/
structure BlsSeries where
  seriesID : String
  data : List DataItem
deriving DecidableEq, Repr

/-- The decoded JSON payload of the API response: the top-level `status`,
the error `message`, and `Results.series`. -/
structure ApiResponse where
  status : String
  message : String
  series : List BlsSeries
deriving DecidableEq, Repr

/-- The transport-level HTTP response: the status code together with the
decoded JSON body (`response.json()`). -/
structure HttpResponse where
  status_code : Nat
  body : ApiResponse
deriving DecidableEq, Repr

/-- `fetch_bls_data` (get_data.py lines 6-31), modelled on an
already-received HTTP response: it raises unless the status code is 200
and the payload's `status` is `"REQUEST_SUCCEEDED"`, and otherwise
returns the decoded payload. -/
def fetch_bls_data (response : HttpResponse) : Except String ApiResponse :=
  if response.status_code ≠ 200 then
    .error ("API request failed with status code " ++ toString response.status_code)
  else if response.body.status ≠ "REQUEST_SUCCEEDED" then
    .error ("API request failed: " ++ response.body.message)
  else
    .ok response.body

/-- The static `series_names` dictionary of `clean_and_process_data`
(get_data.py lines 35-40), as a lookup returning `none` off the four
keys. -/
def series_names (series_id : String) : Option String :=
  if series_id = "LNS14000000" then some "Unemployment_Rate"
  else if series_id = "CES0000000001" then some "Total_Nonfarm_Employees"
  else if series_id = "CES0500000003" then some "Avg_Hourly_Earnings"
  else if series_id = "CES0500000007" then some "Avg_Weekly_Hours"
  else none

/-- One element of `all_data` (get_data.py lines 58-62): the long-format
record appended for a monthly observation, before any type conversion.
The date string `f"{year}-{month}-01"` is kept as its two components. -/
structure RawRec where
  year : String
  month : String
  series_name : String
  value : String
deriving DecidableEq, Repr

/-- Python's `str.startswith` for the single-character prefixes the
source uses, written over the character list so that it evaluates inside
the kernel. -/
def startsWithChar (c : Char) (s : String) : Bool :=
  match s.data with
  | [] => false
  | a :: _ => a == c

/-- get_data.py lines 42-62: build `all_data`, keeping exactly the items
whose `period` starts with `"M"`, taking the month digits from
`period[1:]`, and resolving the column name through `series_names` with
the raw identifier as fallback (`series_names.get(series_id, series_id)`). -/
def buildAllData (series : List BlsSeries) : List RawRec :=
  series.flatMap fun s =>
    s.data.filterMap fun item =>
      if startsWithChar 'M' item.period then
        some { year := item.year, month := item.period.drop 1,
               series_name := (series_names s.seriesID).getD s.seriesID,
               value := item.value }
      else none

/-- A digit string to a number: `none` when empty or when a non-digit
appears — the acceptance of `str` to `int` conversion on the date
components. -/
def parseDigits (cs : List Char) : Option Nat :=
  if cs.isEmpty then none
  else
    cs.foldl (fun acc c =>
      acc.bind fun n => if c.isDigit then some (n * 10 + (c.toNat - 48)) else none)
      (some 0)

/-- `pd.to_datetime` on one `f"{year}-{month}-01"` string, returned as
the month index `year * 12 + month` (order-isomorphic to the
first-of-month timestamp); `none` (a raise) when a component is not
numeric or the month is outside 1..12. -/
def toDatetime (year month : String) : Option Nat :=
  match parseDigits year.data, parseDigits month.data with
  | some y, some m => if 1 ≤ m ∧ m ≤ 12 then some (y * 12 + m) else none
  | _, _ => none

/-- Split a character list at every occurrence of `c` — the semantics
of `str.split` on a one-character separator, written structurally. -/
def splitOnChar (c : Char) : List Char → List (List Char)
  | [] => [[]]
  | a :: rest =>
    match splitOnChar c rest with
    | head :: tail => if a == c then [] :: head :: tail else (a :: head) :: tail
    | [] => if a == c then [[], []] else [[a]]

/-- `pd.to_numeric(..., errors="coerce")` on one cell: decimal literals
with an optional leading minus and an optional fraction part become
exact rationals; anything else coerces to missing (NaN), never a raise. -/
def toNumeric (s : String) : Option ℚ :=
  let neg : Bool := startsWithChar '-' s
  let core : String := if neg then s.drop 1 else s
  match splitOnChar '.' core.data with
  | [ip] => (parseDigits ip).map fun n => if neg then -(n : ℚ) else (n : ℚ)
  | [ip, fp] =>
    match parseDigits ip, parseDigits fp with
    | some a, some b =>
      let q : ℚ := (a : ℚ) + (b : ℚ) / ((10 : ℚ) ^ fp.length)
      some (if neg then -q else q)
    | _, _ => none
  | _ => none

/-- A fully typed long-format row of the DataFrame after the column
conversions: month-indexed date, column name, and the numeric value,
where `none` models a NaN produced by coercion. -/
structure LongRec where
  date : Nat
  series_name : String
  value : Option ℚ
deriving DecidableEq, Repr

/-- get_data.py lines 64-66: `pd.DataFrame(all_data)` plus the `date` and
`value` column conversions.  `pd.DataFrame([])["date"]` raises KeyError
when `all_data` is empty and `pd.to_datetime` raises on an unparseable
date, so this step is fallible; `to_numeric` only coerces and never
raises. -/
def typedRecords (all_data : List RawRec) : Except String (List LongRec) :=
  if all_data.isEmpty then .error "KeyError: date"
  else
    all_data.mapM fun r =>
      match toDatetime r.year r.month with
      | some d => .ok { date := d, series_name := r.series_name, value := toNumeric r.value }
      | none => .error "to_datetime: unable to parse date"

/-- The pivot keys: the (date, series_name) pair of every long row.
`df.pivot` demands these be pairwise distinct. -/
def pivotKeys (recs : List LongRec) : List (Nat × String) :=
  recs.map fun r => (r.date, r.series_name)

/-- Cell lookup in the long data: the value at `(date, series_name)`.
`none` means the pivoted cell is NaN, either because no record exists or
because the record's value was coerced to NaN. -/
def lookupCell (recs : List LongRec) (d : Nat) (c : String) : Option ℚ :=
  (recs.find? fun r => r.date == d && r.series_name == c).bind (·.value)

/-- One pivot row at date `d`: the cell for every column in order,
failing if any cell is missing — exactly the rows `dropna` removes. -/
def lookupRow (recs : List LongRec) (d : Nat) : List String → Option (List ℚ)
  | [] => some []
  | c :: cs =>
    match lookupCell recs d c, lookupRow recs d cs with
    | some v, some vs => some (v :: vs)
    | _, _ => none

/-- The distinct dates of the long data in ascending order — the index
of the pivoted frame after the explicit ascending `sort_values("date")`. -/
def sortedDatesOf (recs : List LongRec) : List Nat :=
  ((recs.map (·.date)).dedup).insertionSort (· ≤ ·)

/-- The distinct series names of the long data in ascending order — the
columns of the pivoted frame (pandas sorts column labels). -/
def sortedColsOf (recs : List LongRec) : List String :=
  ((recs.map (·.series_name)).dedup).insertionSort (· ≤ ·)

/-- The wide table: the column names and one (date, values) row per kept
date, `values` aligned with `cols`. -/
structure PivotTable where
  cols : List String
  rows : List (Nat × List ℚ)
deriving DecidableEq, Repr

/-- get_data.py lines 68-71: `pivot` (raising when a (date, series_name)
pair repeats), `reset_index`, the ascending sort on `date`, and `dropna`
keeping exactly the dates whose row has every column present. -/
def pivotAndClean (recs : List LongRec) : Except String PivotTable :=
  if (pivotKeys recs).Nodup then
    .ok { cols := sortedColsOf recs,
          rows := (sortedDatesOf recs).filterMap fun d =>
            (lookupRow recs d (sortedColsOf recs)).map fun vs => (d, vs) }
  else
    .error "Index contains duplicate entries, cannot reshape"

/-- `clean_and_process_data` (get_data.py lines 33-75). -/
def clean_and_process_data (api_response : ApiResponse) : Except String PivotTable :=
  (typedRecords (buildAllData api_response.series)).bind pivotAndClean

/-- The compiled-in series identifier list (get_data.py lines 78-83). -/
def series_ids : List String :=
  ["LNS14000000", "CES0000000001", "CES0500000003", "CES0500000007"]

/-- get_data.py lines 88-94: one whole Fetcher run against the prior
file state.  A raised error anywhere terminates the run before
`to_csv`, leaving the persisted file untouched; only a fully successful
run replaces the file, wholesale, with the new table.  The pair returned
is (file state after the run, the raised error if any). -/
def runFetcher (response : HttpResponse) (prevFile : Option PivotTable) :
    Option PivotTable × Option String :=
  match fetch_bls_data response with
  | .error e => (prevFile, some e)
  | .ok data =>
    match clean_and_process_data data with
    | .error e => (prevFile, some e)
    | .ok t => (some t, none)

/-- Unpivot: flatten the wide table back into (date, column, value)
triples — the inverse reshape used to state the round-trip property. -/
def unpivot (t : PivotTable) : List (Nat × String × ℚ) :=
  t.rows.flatMap fun row => (t.cols.zip row.2).map fun cv => (row.1, cv.1, cv.2)

/-- The twelve monthly period codes `"M01"`..`"M12"` of the API
interface (spec §6). -/
def monthlyPeriods : List String :=
  ["M01", "M02", "M03", "M04", "M05", "M06",
   "M07", "M08", "M09", "M10", "M11", "M12"]

/-! ## Dashboard (app.py) -/

/-- A row of the loaded dashboard table (`labor_data.csv` after
`pd.read_csv` and the `to_datetime` conversion): the month-indexed date
and the four indicator columns. -/
structure DashRow where
  date : Nat
  Unemployment_Rate : ℚ
  Total_Nonfarm_Employees : ℚ
  Avg_Hourly_Earnings : ℚ
  Avg_Weekly_Hours : ℚ
deriving DecidableEq, Repr

/-- `load_data` (app.py lines 13-18) against the file-system state:
reads and parses the persisted table, raising `FileNotFoundError` when
the file is absent. -/
def load_data (file : Option (List DashRow)) : Except String (List DashRow) :=
  match file with
  | none => .error "FileNotFoundError"
  | some df => .ok df

/-- `df[column_name]` on the dashboard table: the column as a list,
`none` (a KeyError) for a name that is not one of the four numeric
columns. -/
def getColumn (df : List DashRow) (column_name : String) : Option (List ℚ) :=
  if column_name = "Unemployment_Rate" then some (df.map (·.Unemployment_Rate))
  else if column_name = "Total_Nonfarm_Employees" then
    some (df.map (·.Total_Nonfarm_Employees))
  else if column_name = "Avg_Hourly_Earnings" then
    some (df.map (·.Avg_Hourly_Earnings))
  else if column_name = "Avg_Weekly_Hours" then some (df.map (·.Avg_Weekly_Hours))
  else none

/-- `calculate_change` (app.py lines 20-26): fewer than two rows gives 0
before any column access; otherwise `iloc[-1] - iloc[-2]` of the column,
a KeyError if the column does not exist.  With at least two rows both
positional indices are in range, so the `getD` defaults are never
consulted. -/
def calculate_change (df : List DashRow) (column_name : String) : Except String ℚ :=
  if df.length < 2 then .ok 0
  else
    match getColumn df column_name with
    | none => .error ("KeyError: " ++ column_name)
    | some vals => .ok (vals.getD (vals.length - 1) 0 - vals.getD (vals.length - 2) 0)

/-- The floor of a rational, written with explicit floor division so
that it evaluates inside the kernel. -/
def ratFloor (q : ℚ) : ℤ := q.num.fdiv q.den

/-- Round a rational to the nearest integer, ties to even — the
rounding CPython's fixed-point formatting applies to the (exactly
represented) double it is given. -/
def roundHalfEven (q : ℚ) : ℤ :=
  let f : ℤ := ratFloor q
  let r : ℚ := q - (f : ℚ)
  if r < 1 / 2 then f
  else if 1 / 2 < r then f + 1
  else if f % 2 = 0 then f else f + 1

/-- Left-pad a digit string with zeros to width `w`. -/
def padLeftZeros (s : String) (w : Nat) : String :=
  if s.length < w then String.mk (List.replicate (w - s.length) '0') ++ s else s

/-- Python's `f"{value:.{d}f}"` on an exact rational value. -/
def formatFixed (value : ℚ) (d : Nat) : String :=
  let scaled : ℤ := roundHalfEven (value * (10 : ℚ) ^ d)
  let sign : String := if scaled < 0 then "-" else ""
  let m : Nat := scaled.natAbs
  if d = 0 then sign ++ toString m
  else sign ++ toString (m / 10 ^ d) ++ "." ++ padLeftZeros (toString (m % 10 ^ d)) d

/-- Insert thousands separators into a digit string (Python's `,`
format flag). -/
def groupThousands (s : String) : String :=
  let out := s.data.reverse.enum.flatMap fun ic =>
    if ic.1 ≠ 0 ∧ ic.1 % 3 = 0 then [',', ic.2] else [ic.2]
  String.mk out.reverse

/-- Python's `f"{value:,.0f}"`: thousands-grouped, no decimals. -/
def formatGrouped0 (value : ℚ) : String :=
  let scaled : ℤ := roundHalfEven value
  (if scaled < 0 then "-" else "") ++ groupThousands (toString scaled.natAbs)

/-- `format_value` (app.py lines 28-38).  The fall-through `str(value)`
branch renders the rational directly; no tracked metric type reaches
it. -/
def format_value (value : ℚ) (metric_type : String) : String :=
  if metric_type = "rate" then formatFixed value 1 ++ "%"
  else if metric_type = "employees" then formatGrouped0 value ++ "K"
  else if metric_type = "earnings" then "$" ++ formatFixed value 2
  else if metric_type = "hours" then formatFixed value 1
  else toString value

/-- Python's `f"{value:+.{d}f}"`: like `formatFixed` with an explicit
plus on non-negative output.  (For a negative value that rounds to zero
CPython shows the sign of the float, `-0.0`; the dashboard claims never
exercise that corner.) -/
def formatSigned (value : ℚ) (d : Nat) : String :=
  if roundHalfEven (value * (10 : ℚ) ^ d) < 0 then formatFixed value d
  else "+" ++ formatFixed value d

/-- Python's `f"{value:+,.0f}"`: signed and thousands-grouped. -/
def formatSignedGrouped0 (value : ℚ) : String :=
  if roundHalfEven value < 0 then formatGrouped0 value
  else "+" ++ formatGrouped0 value

/-- One summary card as `st.metric` renders it: label, formatted latest
value, formatted delta, and whether the delta color semantics are
inverted. -/
structure Card where
  label : String
  value : String
  delta : String
  delta_color_inverse : Bool
deriving DecidableEq, Repr

/-- app.py lines 69-108: the four summary cards, computed from the full
loaded table.  `iloc[-1]` raises on an empty table, so the step is
fallible; `delta_color="inverse"` is set only on the unemployment
card. -/
def summaryCards (df : List DashRow) : Except String (List Card) :=
  match df.getLast? with
  | none => .error "IndexError: single positional indexer is out-of-bounds"
  | some lastRow => do
    let cU ← calculate_change df "Unemployment_Rate"
    let cE ← calculate_change df "Total_Nonfarm_Employees"
    let cH ← calculate_change df "Avg_Hourly_Earnings"
    let cW ← calculate_change df "Avg_Weekly_Hours"
    .ok [
      { label := "Unemployment Rate",
        value := format_value lastRow.Unemployment_Rate "rate",
        delta := formatSigned cU 1 ++ "%",
        delta_color_inverse := true },
      { label := "Total Nonfarm Employees",
        value := format_value lastRow.Total_Nonfarm_Employees "employees",
        delta := formatSignedGrouped0 cE ++ "K",
        delta_color_inverse := false },
      { label := "Avg Hourly Earnings",
        value := format_value lastRow.Avg_Hourly_Earnings "earnings",
        delta := "$" ++ formatSigned cH 2,
        delta_color_inverse := false },
      { label := "Avg Weekly Hours",
        value := format_value lastRow.Avg_Weekly_Hours "hours",
        delta := formatSigned cW 1,
        delta_color_inverse := false } ]

/-- app.py line 62: the date-range banner.  `.min()/.max()` of an empty
date column give NaT and `.strftime` then raises.  The banner shows the
dates by their month index rather than the `%B %Y` month name. -/
def dateRangeInfo (df : List DashRow) : Except String String :=
  match (df.map (·.date)).min?, (df.map (·.date)).max? with
  | some lo, some hi => .ok ("Data Range: " ++ toString lo ++ " to " ++ toString hi)
  | _, _ => .error "NaTType does not support strftime"

/-- app.py lines 126-131: the time-range filter.  `df.tail(n)` keeps
the last `n` rows (all of them when fewer); any other selection — only
`"Full Range"` is offered — passes the table through. -/
def filterTimeRange (time_range : String) (df : List DashRow) : List DashRow :=
  if time_range = "Last 12 Months" then df.drop (df.length - 12)
  else if time_range = "Last 6 Months" then df.drop (df.length - 6)
  else df

/-- The multiselect options (app.py lines 135-144): the only values the
UI can hand to the chart section. -/
def chartOptions : List String :=
  ["Unemployment_Rate", "Total_Nonfarm_Employees",
   "Avg_Hourly_Earnings", "Avg_Weekly_Hours"]

/-- The fixed color palette (app.py lines 151-156). -/
def colors (series : String) : Option String :=
  if series = "Unemployment_Rate" then some "#FF6B6B"
  else if series = "Total_Nonfarm_Employees" then some "#4ECDC4"
  else if series = "Avg_Hourly_Earnings" then some "#45B7D1"
  else if series = "Avg_Weekly_Hours" then some "#FFA07A"
  else none

/-- The fixed display names (app.py lines 159-164). -/
def display_names (series : String) : Option String :=
  if series = "Unemployment_Rate" then some "Unemployment Rate (%)"
  else if series = "Total_Nonfarm_Employees" then
    some "Total Nonfarm Employees (thousands)"
  else if series = "Avg_Hourly_Earnings" then some "Avg Hourly Earnings ($)"
  else if series = "Avg_Weekly_Hours" then some "Avg Weekly Hours"
  else none

/-- One `go.Scatter` trace: x data, y data, legend name, line color. -/
structure Trace where
  x : List Nat
  y : List ℚ
  name : String
  color : String
deriving DecidableEq, Repr

/-- The chart area: a figure with its traces when series are selected,
the warning prompt otherwise. -/
inductive ChartView where
  | figure (traces : List Trace)
  | prompt (message : String)
deriving DecidableEq, Repr

/-- One trace of the loop at app.py lines 166-175.
`display_names[series]`, `colors[series]` and `df_filtered[series]`
raise KeyError on a name outside the four columns. -/
def buildTrace (df_filtered : List DashRow) (series : String) : Except String Trace :=
  match display_names series, colors series, getColumn df_filtered series with
  | some nm, some c, some ys =>
    .ok { x := df_filtered.map (·.date), y := ys, name := nm, color := c }
  | _, _, _ => .error ("KeyError: " ++ series)

/-- The `for series in selected_series` loop (app.py lines 166-175):
one trace per selected series, in selection order; the first raise
aborts the pass. -/
def buildTraces (df_filtered : List DashRow) : List String → Except String (List Trace)
  | [] => .ok []
  | s :: rest =>
    match buildTrace df_filtered s, buildTraces df_filtered rest with
    | .ok t, .ok ts => .ok (t :: ts)
    | .error e, _ => .error e
    | _, .error e => .error e

/-- app.py lines 146-195: the chart section as a function of the
selection — a figure with one trace per selected series in selection
order, or the prompt when nothing is selected. -/
def renderChart (selected_series : List String) (df_filtered : List DashRow) :
    Except String ChartView :=
  if selected_series.isEmpty then
    .ok (.prompt "Please select at least one series to display.")
  else
    (buildTraces df_filtered selected_series).map .figure

/-- app.py lines 198-203: the raw-data panel, the filtered table sorted
by date descending. -/
def rawDataView (df_filtered : List DashRow) : List DashRow :=
  @List.insertionSort DashRow (fun a b => b.date ≤ a.date)
    (fun a b => Nat.decLe b.date a.date) df_filtered

/-- The rendered page contents produced by one pass of `main`. -/
structure DashboardPage where
  info : String
  cards : List Card
  chart : ChartView
  raw_data : List DashRow
deriving DecidableEq, Repr

/-- What one run of `main` shows: the missing-file error view
(`st.error` + `st.stop`, app.py lines 55-59) or the full page. -/
inductive AppView where
  | missingFile (message : String)
  | page (p : DashboardPage)
deriving DecidableEq, Repr

/-- One full render pass of `main` (app.py lines 40-210) as a function
of the file-system state and the two UI inputs.  Only the
`FileNotFoundError` of `load_data` is caught (lines 55-59); any other
raise propagates out of the pass as `.error`.  The cards are computed
from the full table `df`; the chart and the raw-data panel from
`df_filtered`. -/
def appMain (file : Option (List DashRow)) (time_range : String)
    (selected_series : List String) : Except String AppView :=
  match load_data file with
  | .error _ =>
    .ok (.missingFile
      "⚠️ Data file 'labor_data.csv' not found. Please run 'get_data.py' first to fetch the data.")
  | .ok df => do
    let info ← dateRangeInfo df
    let cards ← summaryCards df
    let df_filtered := filterTimeRange time_range df
    let chart ← renderChart selected_series df_filtered
    .ok (.page { info := info, cards := cards, chart := chart,
                 raw_data := rawDataView df_filtered })

/-! ## Helper lemmas -/

/-- `calculate_change` against a column equation: the shared core of the
delta claim, for any of the four column projections. -/
theorem calculate_change_spec (df : List DashRow) (cn : String) (f : DashRow → ℚ)
    (hcol : getColumn df cn = some (df.map f)) :
    (2 ≤ df.length → ∃ vals a b, getColumn df cn = some vals ∧
      vals.getLast? = some a ∧ vals.dropLast.getLast? = some b ∧
      calculate_change df cn = .ok (a - b)) ∧
    (df.length < 2 → calculate_change df cn = .ok 0) := by
  constructor
  · intro h2
    set vals := df.map f with hv
    have hlen : vals.length = df.length := by simp [hv]
    have h1 : vals.length - 1 < vals.length := by omega
    have h2b : vals.length - 2 < vals.length := by omega
    refine ⟨vals, vals.get ⟨vals.length - 1, h1⟩, vals.get ⟨vals.length - 2, h2b⟩,
      hcol, ?_, ?_, ?_⟩
    · rw [List.getLast?_eq_getElem?, List.getElem?_eq_getElem h1]
      simp
    · rw [List.getLast?_eq_getElem?, List.length_dropLast]
      have hidx : vals.length - 1 - 1 = vals.length - 2 := by omega
      rw [hidx, List.getElem?_dropLast, if_pos (by omega),
        List.getElem?_eq_getElem h2b]
      simp
    · have hne : ¬ df.length < 2 := by omega
      simp only [calculate_change, if_neg hne, hcol]
      congr 1
      rw [List.getD_eq_getElem?_getD, List.getD_eq_getElem?_getD,
        List.getElem?_eq_getElem h1, List.getElem?_eq_getElem h2b]
      simp
  · intro hlt
    unfold calculate_change
    rw [if_pos hlt]

/-! ## Claims -/

/-- C1: for every Fetcher run in which the HTTP status code is not a
success or the payload's status field is not "REQUEST_SUCCEEDED", the
run aborts by raising a descriptive error before any write occurs, so
the previously persisted file is left unchanged. -/
theorem fetcher_fail_fast (response : HttpResponse) (prevFile : Option PivotTable)
    (h : response.status_code ≠ 200 ∨ response.body.status ≠ "REQUEST_SUCCEEDED") :
    (∃ e, fetch_bls_data response = .error e) ∧
    (runFetcher response prevFile).1 = prevFile ∧
    (runFetcher response prevFile).2.isSome := by
  have hf : ∃ e, fetch_bls_data response = .error e := by
    by_cases h2 : response.status_code = 200
    · have hs : response.body.status ≠ "REQUEST_SUCCEEDED" := by tauto
      exact ⟨"API request failed: " ++ response.body.message,
        by simp [fetch_bls_data, h2, hs]⟩
    · exact ⟨"API request failed with status code " ++ toString response.status_code,
        by simp [fetch_bls_data, h2]⟩
  obtain ⟨e, he⟩ := hf
  exact ⟨⟨e, he⟩, by simp [runFetcher, he], by simp [runFetcher, he]⟩

/-- Witness for C1, at a 500 response with a failed payload status. -/
theorem fetcher_fail_fast_witness :
    (∃ e, fetch_bls_data
      { status_code := 500,
        body := { status := "REQUEST_FAILED", message := "boom", series := [] } } = .error e) ∧
    (runFetcher
      { status_code := 500,
        body := { status := "REQUEST_FAILED", message := "boom", series := [] } } none).1 = none ∧
    (runFetcher
      { status_code := 500,
        body := { status := "REQUEST_FAILED", message := "boom", series := [] } } none).2.isSome :=
  fetcher_fail_fast
    { status_code := 500,
      body := { status := "REQUEST_FAILED", message := "boom", series := [] } }
    none (by decide)

/-- C3: for every loaded table with at least 2 rows and every tracked
column, the summary-card delta equals the last row's value minus the
second-to-last row's value of that column; for fewer than 2 rows the
delta is 0 and no error is raised. -/
theorem delta_last_minus_previous (df : List DashRow) (column_name : String)
    (h : column_name ∈ chartOptions) :
    (2 ≤ df.length → ∃ vals a b, getColumn df column_name = some vals ∧
      vals.getLast? = some a ∧ vals.dropLast.getLast? = some b ∧
      calculate_change df column_name = .ok (a - b)) ∧
    (df.length < 2 → calculate_change df column_name = .ok 0) := by
  simp only [chartOptions, List.mem_cons, List.not_mem_nil, or_false] at h
  rcases h with rfl | rfl | rfl | rfl
  · exact calculate_change_spec df _ (·.Unemployment_Rate) rfl
  · exact calculate_change_spec df _ (·.Total_Nonfarm_Employees) rfl
  · exact calculate_change_spec df _ (·.Avg_Hourly_Earnings) rfl
  · exact calculate_change_spec df _ (·.Avg_Weekly_Hours) rfl

/-- A concrete two-row loaded table used by the dashboard witnesses. -/
def dfW : List DashRow :=
  [ { date := 24289, Unemployment_Rate := 4, Total_Nonfarm_Employees := 150000,
      Avg_Hourly_Earnings := 28, Avg_Weekly_Hours := 34 },
    { date := 24290, Unemployment_Rate := 5, Total_Nonfarm_Employees := 150100,
      Avg_Hourly_Earnings := 29, Avg_Weekly_Hours := 35 } ]

/-- Witness for C3, at the two-row table and the unemployment column. -/
theorem delta_last_minus_previous_witness :
    (2 ≤ dfW.length → ∃ vals a b, getColumn dfW "Unemployment_Rate" = some vals ∧
      vals.getLast? = some a ∧ vals.dropLast.getLast? = some b ∧
      calculate_change dfW "Unemployment_Rate" = .ok (a - b)) ∧
    (dfW.length < 2 → calculate_change dfW "Unemployment_Rate" = .ok 0) :=
  delta_last_minus_previous dfW "Unemployment_Rate" (by decide)

/-- C5: the metric formatter reproduces the spec's concrete examples:
format(3.95, rate) is "4.0%", format(4.963, rate) is "5.0%",
format(150234, employees) is "150,234K", format(28.5, earnings) is
"$28.50", and format(34.3, hours) is "34.3". -/
theorem format_value_examples :
    format_value (395 / 100 : ℚ) "rate" = "4.0%" ∧
    format_value (4963 / 1000 : ℚ) "rate" = "5.0%" ∧
    format_value (150234 : ℚ) "employees" = "150,234K" ∧
    format_value (285 / 10 : ℚ) "earnings" = "$28.50" ∧
    format_value (343 / 10 : ℚ) "hours" = "34.3" := by
  with_unfolding_all decide

/-- C6: the time-range filter is a pure suffix operation: the two
last-N selections return exactly the last min(N, len) rows with content
and order unchanged, and "Full Range" returns the table unchanged. -/
theorem time_range_suffix (df : List DashRow) :
    (∃ p, p ++ filterTimeRange "Last 6 Months" df = df) ∧
    (filterTimeRange "Last 6 Months" df).length = min 6 df.length ∧
    (∃ p, p ++ filterTimeRange "Last 12 Months" df = df) ∧
    (filterTimeRange "Last 12 Months" df).length = min 12 df.length ∧
    filterTimeRange "Full Range" df = df := by
  have h6 : filterTimeRange "Last 6 Months" df = df.drop (df.length - 6) := rfl
  have h12 : filterTimeRange "Last 12 Months" df = df.drop (df.length - 12) := rfl
  refine ⟨⟨df.take (df.length - 6), ?_⟩, ?_, ⟨df.take (df.length - 12), ?_⟩, ?_, rfl⟩
  · rw [h6, List.take_append_drop]
  · rw [h6, List.length_drop]; omega
  · rw [h12, List.take_append_drop]
  · rw [h12, List.length_drop]; omega

/-- C8: when the persisted file is absent, the Dashboard run surfaces
the user-facing error directing the user to run the Fetcher and halts:
the pass returns the error view, with no page rendered and no uncaught
exception. -/
theorem missing_file_halts (time_range : String) (selected_series : List String) :
    appMain none time_range selected_series =
      .ok (.missingFile "⚠️ Data file 'labor_data.csv' not found. Please run 'get_data.py' first to fetch the data.") :=
  rfl

/-- Reduction of `Except`'s bind on a success value, for unfolding the
do-chains of `summaryCards` and `appMain`. -/
theorem bind_ok_eq {α β ε : Type} (x : α) (f : α → Except ε β) :
    (Except.ok x : Except ε α) >>= f = f x := rfl

/-- Every name in the multiselect options is a real column: `getColumn`
returns it as a mapped projection. -/
theorem getColumn_of_mem (df : List DashRow) (cn : String) (h : cn ∈ chartOptions) :
    ∃ f : DashRow → ℚ, getColumn df cn = some (df.map f) := by
  simp only [chartOptions, List.mem_cons, List.not_mem_nil, or_false] at h
  rcases h with rfl | rfl | rfl | rfl
  · exact ⟨fun r => r.Unemployment_Rate, rfl⟩
  · exact ⟨fun r => r.Total_Nonfarm_Employees, rfl⟩
  · exact ⟨fun r => r.Avg_Hourly_Earnings, rfl⟩
  · exact ⟨fun r => r.Avg_Weekly_Hours, rfl⟩

/-- `calculate_change` never raises on a real column name. -/
theorem calculate_change_ok (df : List DashRow) (cn : String) (h : cn ∈ chartOptions) :
    ∃ q, calculate_change df cn = .ok q := by
  by_cases h2 : df.length < 2
  · exact ⟨0, by unfold calculate_change; rw [if_pos h2]⟩
  · obtain ⟨f, hf⟩ := getColumn_of_mem df cn h
    exact ⟨_, by unfold calculate_change; rw [if_neg h2, hf]⟩

/-- `buildTrace` succeeds on every name among the multiselect options. -/
theorem buildTrace_ok (df : List DashRow) (s : String) (h : s ∈ chartOptions) :
    ∃ t, buildTrace df s = .ok t := by
  simp only [chartOptions, List.mem_cons, List.not_mem_nil, or_false] at h
  rcases h with rfl | rfl | rfl | rfl <;> exact ⟨_, rfl⟩

/-- The trace loop succeeds on any list of option names. -/
theorem buildTraces_ok (df : List DashRow) :
    ∀ l : List String, (∀ s ∈ l, s ∈ chartOptions) →
      ∃ ts, buildTraces df l = .ok ts
  | [], _ => ⟨[], rfl⟩
  | s :: rest, h => by
    obtain ⟨t, ht⟩ := buildTrace_ok df s (h s (.head _))
    obtain ⟨ts, hts⟩ := buildTraces_ok df rest (fun x hx => h x (.tail _ hx))
    exact ⟨t :: ts, by simp [buildTraces, ht, hts]⟩

/-- C7: chart rendering never throws for any selection drawn from the
offered options; an empty selection yields the prompt instead of a
chart, and selecting all four columns yields exactly the four traces
with their documented fixed colors and display labels. -/
theorem chart_selection_safe (selected_series : List String) (df_filtered : List DashRow)
    (h : ∀ s ∈ selected_series, s ∈ chartOptions) :
    (∃ v, renderChart selected_series df_filtered = .ok v) ∧
    (selected_series = [] → renderChart selected_series df_filtered =
      .ok (.prompt "Please select at least one series to display.")) ∧
    (selected_series = chartOptions → renderChart selected_series df_filtered =
      .ok (.figure
        [ { x := df_filtered.map (·.date), y := df_filtered.map (·.Unemployment_Rate),
            name := "Unemployment Rate (%)", color := "#FF6B6B" },
          { x := df_filtered.map (·.date), y := df_filtered.map (·.Total_Nonfarm_Employees),
            name := "Total Nonfarm Employees (thousands)", color := "#4ECDC4" },
          { x := df_filtered.map (·.date), y := df_filtered.map (·.Avg_Hourly_Earnings),
            name := "Avg Hourly Earnings ($)", color := "#45B7D1" },
          { x := df_filtered.map (·.date), y := df_filtered.map (·.Avg_Weekly_Hours),
            name := "Avg Weekly Hours", color := "#FFA07A" } ])) := by
  refine ⟨?_, fun he => by subst he; rfl, fun hall => by subst hall; rfl⟩
  rcases hsel : selected_series with _ | ⟨s, rest⟩
  · exact ⟨_, rfl⟩
  · obtain ⟨ts, hts⟩ := buildTraces_ok df_filtered (s :: rest) (hsel ▸ h)
    exact ⟨.figure ts, by simp [renderChart, hts, Except.map]⟩

/-- Witness for C7, at the full four-series selection over the two-row
table. -/
theorem chart_selection_safe_witness :
    (∃ v, renderChart chartOptions dfW = .ok v) ∧
    (chartOptions = [] → renderChart chartOptions dfW =
      .ok (.prompt "Please select at least one series to display.")) ∧
    (chartOptions = chartOptions → renderChart chartOptions dfW =
      .ok (.figure
        [ { x := dfW.map (·.date), y := dfW.map (·.Unemployment_Rate),
            name := "Unemployment Rate (%)", color := "#FF6B6B" },
          { x := dfW.map (·.date), y := dfW.map (·.Total_Nonfarm_Employees),
            name := "Total Nonfarm Employees (thousands)", color := "#4ECDC4" },
          { x := dfW.map (·.date), y := dfW.map (·.Avg_Hourly_Earnings),
            name := "Avg Hourly Earnings ($)", color := "#45B7D1" },
          { x := dfW.map (·.date), y := dfW.map (·.Avg_Weekly_Hours),
            name := "Avg Weekly Hours", color := "#FFA07A" } ])) :=
  chart_selection_safe chartOptions dfW (by decide)

/-- The date-range banner succeeds on any nonempty table. -/
theorem dateRangeInfo_ok (df : List DashRow) (h : df ≠ []) :
    ∃ i, dateRangeInfo df = .ok i := by
  have hne : df.map (·.date) ≠ [] := by simpa using h
  cases hmin : (df.map (·.date)).min? with
  | none => exact absurd (List.min?_eq_none_iff.mp hmin) hne
  | some lo =>
    cases hmax : (df.map (·.date)).max? with
    | none => exact absurd (List.max?_eq_none_iff.mp hmax) hne
    | some hi =>
      exact ⟨"Data Range: " ++ toString lo ++ " to " ++ toString hi,
        by unfold dateRangeInfo; rw [hmin, hmax]⟩

/-- The summary cards succeed on any nonempty table. -/
theorem summaryCards_ok (df : List DashRow) (h : df ≠ []) :
    ∃ cs, summaryCards df = .ok cs := by
  obtain ⟨lastRow, hl⟩ : ∃ r, df.getLast? = some r := by
    cases hdl : df.getLast? with
    | none => exact absurd (List.getLast?_eq_none_iff.mp hdl) h
    | some r => exact ⟨r, rfl⟩
  obtain ⟨qU, hU⟩ := calculate_change_ok df "Unemployment_Rate" (by decide)
  obtain ⟨qE, hE⟩ := calculate_change_ok df "Total_Nonfarm_Employees" (by decide)
  obtain ⟨qH, hH⟩ := calculate_change_ok df "Avg_Hourly_Earnings" (by decide)
  obtain ⟨qW, hW⟩ := calculate_change_ok df "Avg_Weekly_Hours" (by decide)
  exact ⟨_, by simp only [summaryCards, hl, hU, hE, hH, hW, bind_ok_eq]; rfl⟩

/-- C10: the four summary cards are computed from the full loaded table
and are unaffected by the time-range selection — two render passes over
the same table that differ only in the chosen time range produce
identical cards (and an identical banner); only the chart and the
raw-data view follow the filter. -/
theorem cards_unaffected_by_time_filter (df : List DashRow) (tr1 tr2 : String)
    (sel : List String) (hdf : df ≠ []) (hsel : ∀ s ∈ sel, s ∈ chartOptions) :
    ∃ p1 p2, appMain (some df) tr1 sel = .ok (.page p1) ∧
      appMain (some df) tr2 sel = .ok (.page p2) ∧
      p1.cards = p2.cards ∧ p1.info = p2.info := by
  obtain ⟨i, hI⟩ := dateRangeInfo_ok df hdf
  obtain ⟨cs, hC⟩ := summaryCards_ok df hdf
  have hch : ∀ tr : String, ∃ ch, renderChart sel (filterTimeRange tr df) = .ok ch := by
    intro tr
    rcases hsel2 : sel with _ | ⟨s, rest⟩
    · exact ⟨_, rfl⟩
    · obtain ⟨ts, hts⟩ := buildTraces_ok (filterTimeRange tr df) (s :: rest)
        (hsel2 ▸ hsel)
      exact ⟨.figure ts, by simp [renderChart, hts, Except.map]⟩
  obtain ⟨ch1, h1⟩ := hch tr1
  obtain ⟨ch2, h2⟩ := hch tr2
  refine ⟨⟨i, cs, ch1, rawDataView (filterTimeRange tr1 df)⟩,
    ⟨i, cs, ch2, rawDataView (filterTimeRange tr2 df)⟩, ?_, ?_, rfl, rfl⟩
  · simp [appMain, load_data, hI, hC, h1, bind_ok_eq]
  · simp [appMain, load_data, hI, hC, h2, bind_ok_eq]

/-- Witness for C10, at the two-row table, "Full Range" versus "Last 6
Months", with the default two-series selection. -/
theorem cards_unaffected_witness :
    ∃ p1 p2, appMain (some dfW) "Full Range"
        ["Unemployment_Rate", "Total_Nonfarm_Employees"] = .ok (.page p1) ∧
      appMain (some dfW) "Last 6 Months"
        ["Unemployment_Rate", "Total_Nonfarm_Employees"] = .ok (.page p2) ∧
      p1.cards = p2.cards ∧ p1.info = p2.info :=
  cards_unaffected_by_time_filter dfW "Full Range" "Last 6 Months"
    ["Unemployment_Rate", "Total_Nonfarm_Employees"] (by decide) (by decide)

/-- Pointwise congruence for `flatMap` over the members of a list. -/
theorem flatMap_congrOn {α β : Type} :
    ∀ (l : List α) (f g : α → List β), (∀ a ∈ l, f a = g a) →
      l.flatMap f = l.flatMap g
  | [], _, _, _ => rfl
  | a :: l, f, g, h => by
    simp only [List.flatMap_cons]
    rw [h a (.head _), flatMap_congrOn l f g (fun x hx => h x (.tail _ hx))]

/-- Pointwise congruence for `filterMap` over the members of a list. -/
theorem filterMap_congrOn {α β : Type} :
    ∀ (l : List α) (f g : α → Option β), (∀ a ∈ l, f a = g a) →
      l.filterMap f = l.filterMap g
  | [], _, _, _ => rfl
  | a :: l, f, g, h => by
    simp only [List.filterMap_cons]
    rw [h a (.head _), filterMap_congrOn l f g (fun x hx => h x (.tail _ hx))]

/-- Each of the twelve monthly period codes starts with the month
marker. -/
theorem monthly_startsWith {p : String} (h : p ∈ monthlyPeriods) :
    startsWithChar 'M' p = true := by
  simp only [monthlyPeriods, List.mem_cons, List.not_mem_nil, or_false] at h
  rcases h with rfl | rfl | rfl | rfl | rfl | rfl | rfl | rfl | rfl | rfl | rfl | rfl <;>
    decide

/-- C4: over any API response obeying the interface contract (a period
beginning with the month marker is one of "M01".."M12"), the reshape
keeps an observation exactly when its period is monthly, mapping it to
its first-of-month date components and the descriptor-resolved column
name; a series identifier absent from the descriptor mapping falls back
to the raw identifier as the column name instead of failing. -/
theorem monthly_kept_exactly (series : List BlsSeries)
    (hvalid : ∀ s ∈ series, ∀ item ∈ s.data,
      startsWithChar 'M' item.period = true → item.period ∈ monthlyPeriods) :
    buildAllData series = (series.flatMap fun s =>
      s.data.filterMap fun item =>
        if item.period ∈ monthlyPeriods then
          some { year := item.year, month := item.period.drop 1,
                 series_name := (series_names s.seriesID).getD s.seriesID,
                 value := item.value }
        else none) ∧
    ∀ s ∈ series, series_names s.seriesID = none →
      ∀ item ∈ s.data, item.period ∈ monthlyPeriods →
        ({ year := item.year, month := item.period.drop 1,
           series_name := s.seriesID, value := item.value } : RawRec) ∈
          buildAllData series := by
  constructor
  · unfold buildAllData
    refine flatMap_congrOn series _ _ (fun s hs => ?_)
    refine filterMap_congrOn s.data _ _ (fun item hi => ?_)
    by_cases hM : startsWithChar 'M' item.period = true
    · rw [if_pos hM, if_pos (hvalid s hs item hi hM)]
    · rw [if_neg hM, if_neg (fun hmem => hM (monthly_startsWith hmem))]
  · intro s hs hnone item hi hmem
    unfold buildAllData
    rw [List.mem_flatMap]
    refine ⟨s, hs, ?_⟩
    rw [List.mem_filterMap]
    refine ⟨item, hi, ?_⟩
    rw [if_pos (monthly_startsWith hmem), hnone]
    rfl

/-- A concrete valid API payload: two series (one with an identifier
outside the descriptor mapping), monthly and annual periods mixed. -/
def respW : ApiResponse :=
  { status := "REQUEST_SUCCEEDED", message := "",
    series := [
      { seriesID := "LNS14000000",
        data := [ { year := "2024", period := "M01", value := "3" },
                  { year := "2024", period := "M02", value := "7" },
                  { year := "2023", period := "A01", value := "9" } ] },
      { seriesID := "XXX",
        data := [ { year := "2024", period := "M01", value := "3" },
                  { year := "2024", period := "M02", value := "7" } ] } ] }

/-- Witness for C4, at the concrete valid payload. -/
theorem monthly_kept_exactly_witness :
    buildAllData respW.series = (respW.series.flatMap fun s =>
      s.data.filterMap fun item =>
        if item.period ∈ monthlyPeriods then
          some { year := item.year, month := item.period.drop 1,
                 series_name := (series_names s.seriesID).getD s.seriesID,
                 value := item.value }
        else none) ∧
    ∀ s ∈ respW.series, series_names s.seriesID = none →
      ∀ item ∈ s.data, item.period ∈ monthlyPeriods →
        ({ year := item.year, month := item.period.drop 1,
           series_name := s.seriesID, value := item.value } : RawRec) ∈
          buildAllData respW.series :=
  monthly_kept_exactly respW.series (by decide)

/-- A successful fetch returns exactly the decoded body. -/
theorem fetch_ok_eq_body (response : HttpResponse) (d : ApiResponse)
    (hd : fetch_bls_data response = .ok d) : d = response.body := by
  unfold fetch_bls_data at hd
  by_cases h1 : response.status_code = 200
  · by_cases h2 : response.body.status = "REQUEST_SUCCEEDED"
    · simp [h1, h2] at hd
      exact hd.symm
    · simp [h1, h2] at hd
  · simp [h1] at hd

/-- C9: when the kept monthly observations contain two records with the
same (date, series_name) pair, the pivot raises the duplicate-entries
error, the reshape step fails, and the Fetcher run aborts with nothing
written: the previously persisted file is unchanged. -/
theorem pivot_duplicate_aborts (response : HttpResponse) (prevFile : Option PivotTable)
    (recs : List LongRec)
    (hrecs : typedRecords (buildAllData response.body.series) = .ok recs)
    (hdup : ¬ (pivotKeys recs).Nodup) :
    clean_and_process_data response.body =
      .error "Index contains duplicate entries, cannot reshape" ∧
    (runFetcher response prevFile).1 = prevFile ∧
    (runFetcher response prevFile).2.isSome := by
  have hclean : clean_and_process_data response.body =
      .error "Index contains duplicate entries, cannot reshape" := by
    unfold clean_and_process_data
    rw [hrecs]
    show pivotAndClean recs = _
    unfold pivotAndClean
    rw [if_neg hdup]
  refine ⟨hclean, ?_, ?_⟩ <;>
  · cases hf : fetch_bls_data response with
    | error e => simp [runFetcher, hf]
    | ok d =>
      have hb := fetch_ok_eq_body response d hf
      subst hb
      simp [runFetcher, hf, hclean]

/-- A payload whose first series reports the same month twice. -/
def respDup : ApiResponse :=
  { status := "REQUEST_SUCCEEDED", message := "",
    series := [
      { seriesID := "LNS14000000",
        data := [ { year := "2024", period := "M01", value := "3" },
                  { year := "2024", period := "M01", value := "4" } ] } ] }

/-- A 200 response carrying the duplicated payload. -/
def responseDup : HttpResponse := { status_code := 200, body := respDup }

/-- The table persisted by an earlier successful run, for the C9
witness. -/
def prevTable : PivotTable :=
  { cols := ["Unemployment_Rate"], rows := [(24289, [5])] }

/-- Witness for C9, at the duplicated payload over a previously
persisted table. -/
theorem pivot_duplicate_aborts_witness :
    clean_and_process_data responseDup.body =
      .error "Index contains duplicate entries, cannot reshape" ∧
    (runFetcher responseDup (some prevTable)).1 = some prevTable ∧
    (runFetcher responseDup (some prevTable)).2.isSome :=
  pivot_duplicate_aborts responseDup (some prevTable)
    [ { date := 24289, series_name := "Unemployment_Rate", value := some 3 },
      { date := 24289, series_name := "Unemployment_Rate", value := some 4 } ]
    rfl (by decide)

/-- The sorted distinct dates are strictly sorted. -/
theorem sortedDatesOf_sorted (recs : List LongRec) :
    (sortedDatesOf recs).Sorted (· < ·) := by
  have h1 : (sortedDatesOf recs).Sorted (· ≤ ·) :=
    List.sorted_insertionSort _ _
  have h2 : (sortedDatesOf recs).Nodup :=
    ((List.perm_insertionSort _ _).nodup_iff).mpr (List.nodup_dedup _)
  exact h1.lt_of_le h2

/-- Projecting the pivot rows to their dates gives the kept-date filter
of the sorted date index. -/
theorem rows_fst_eq_filter {β : Type} :
    ∀ (l : List Nat) (F : Nat → Option β),
      (l.filterMap fun d => (F d).map fun vs => (d, vs)).map Prod.fst
        = l.filter fun d => (F d).isSome
  | [], _ => rfl
  | d :: l, F => by
    cases hF : F d <;>
      simp [List.filterMap_cons, hF, rows_fst_eq_filter l F]

/-- A complete pivot row has one value per column. -/
theorem lookupRow_length (recs : List LongRec) (d : Nat) :
    ∀ (cols : List String) (vs : List ℚ),
      lookupRow recs d cols = some vs → vs.length = cols.length
  | [], vs, h => by
    have h2 : ([] : List ℚ) = vs := Option.some.inj h
    rw [← h2]
    rfl
  | c :: cs, vs, h => by
    unfold lookupRow at h
    cases h1 : lookupCell recs d c <;> rw [h1] at h
    · exact absurd h (by simp)
    case some v =>
      cases h2 : lookupRow recs d cs <;> rw [h2] at h
      · exact absurd h (by simp)
      case some vs2 =>
        obtain rfl : v :: vs2 = vs := by simpa using h
        simp [lookupRow_length recs d cs vs2 h2]

/-- Values in a complete row read back through `lookupCell`. -/
theorem lookupRow_zip_cell (recs : List LongRec) (d : Nat) :
    ∀ (cols : List String) (vs : List ℚ), lookupRow recs d cols = some vs →
      ∀ c v, (c, v) ∈ cols.zip vs → lookupCell recs d c = some v
  | [], vs, _, c, v, hm => by simp at hm
  | c0 :: cs, vs, h, c, v, hm => by
    unfold lookupRow at h
    cases h1 : lookupCell recs d c0 <;> rw [h1] at h
    · exact absurd h (by simp)
    case some v0 =>
      cases h2 : lookupRow recs d cs <;> rw [h2] at h
      · exact absurd h (by simp)
      case some vs2 =>
        obtain rfl : v0 :: vs2 = vs := by simpa using h
        rcases List.mem_cons.mp hm with h3 | h3
        · obtain ⟨rfl, rfl⟩ : c = c0 ∧ v = v0 := by simpa [Prod.ext_iff] using h3
          exact h1
        · exact lookupRow_zip_cell recs d cs vs2 h2 c v h3

/-- Conversely, a column member whose cell is present appears in the
zip of a complete row. -/
theorem lookupRow_cell_zip (recs : List LongRec) (d : Nat) :
    ∀ (cols : List String) (vs : List ℚ), lookupRow recs d cols = some vs →
      ∀ c v, c ∈ cols → lookupCell recs d c = some v → (c, v) ∈ cols.zip vs
  | [], _, _, c, _, hc, _ => absurd hc (List.not_mem_nil c)
  | c0 :: cs, vs, h, c, v, hc, hcell => by
    unfold lookupRow at h
    cases h1 : lookupCell recs d c0 <;> rw [h1] at h
    · exact absurd h (by simp)
    case some v0 =>
      cases h2 : lookupRow recs d cs <;> rw [h2] at h
      · exact absurd h (by simp)
      case some vs2 =>
        obtain rfl : v0 :: vs2 = vs := by simpa using h
        rcases List.mem_cons.mp hc with rfl | hc2
        · obtain rfl : v = v0 := by
            rw [hcell] at h1
            exact Option.some.inj h1
          exact List.mem_cons_self _ _
        · exact List.mem_cons_of_mem _
            (lookupRow_cell_zip recs d cs vs2 h2 c v hc2 hcell)

/-- A successful cell lookup comes from a record of the long data. -/
theorem lookupCell_spec (recs : List LongRec) (d : Nat) (c : String) (v : ℚ)
    (h : lookupCell recs d c = some v) :
    ∃ r ∈ recs, r.date = d ∧ r.series_name = c ∧ r.value = some v := by
  unfold lookupCell at h
  cases hf : recs.find? (fun r => r.date == d && r.series_name == c) <;> rw [hf] at h
  · exact absurd h (by simp)
  case some r =>
    have hm := List.mem_of_find?_eq_some hf
    have hp := List.find?_some hf
    rw [Bool.and_eq_true, beq_iff_eq, beq_iff_eq] at hp
    exact ⟨r, hm, hp.1, hp.2, by simpa using h⟩

/-- With pairwise-distinct pivot keys, `find?` locates each record. -/
theorem find?_eq_of_mem :
    ∀ (recs : List LongRec), (pivotKeys recs).Nodup →
      ∀ r ∈ recs,
        recs.find? (fun x => x.date == r.date && x.series_name == r.series_name) = some r
  | [], _, r, hr => absurd hr (List.not_mem_nil r)
  | a :: recs, hnd, r, hr => by
    have hnd2 : ((a.date, a.series_name) :: pivotKeys recs).Nodup := hnd
    rcases List.mem_cons.mp hr with rfl | hr2
    · simp [List.find?_cons]
    · have hkey : (a.date, a.series_name) ∉ pivotKeys recs := (List.nodup_cons.mp hnd2).1
      have hne : ¬ ((a.date == r.date && a.series_name == r.series_name) = true) := by
        intro hcon
        rw [Bool.and_eq_true, beq_iff_eq, beq_iff_eq] at hcon
        apply hkey
        rw [hcon.1, hcon.2]
        exact List.mem_map.mpr ⟨r, hr2, rfl⟩
      rw [List.find?_cons_of_neg
        (p := fun x => x.date == r.date && x.series_name == r.series_name) recs hne]
      exact find?_eq_of_mem recs (List.nodup_cons.mp hnd2).2 r hr2

/-- With distinct keys, each record's cell reads back its own value. -/
theorem lookupCell_of_mem (recs : List LongRec) (hnd : (pivotKeys recs).Nodup)
    (r : LongRec) (hr : r ∈ recs) :
    lookupCell recs r.date r.series_name = r.value := by
  unfold lookupCell
  rw [find?_eq_of_mem recs hnd r hr]
  rfl

/-- Membership in the pivot rows. -/
theorem mem_rows_iff (recs : List LongRec) (cols : List String) (d : Nat) (vs : List ℚ) :
    ((d, vs) ∈ (sortedDatesOf recs).filterMap fun d2 =>
        (lookupRow recs d2 cols).map fun vs2 => (d2, vs2)) ↔
      d ∈ sortedDatesOf recs ∧ lookupRow recs d cols = some vs := by
  rw [List.mem_filterMap]
  constructor
  · rintro ⟨a, ha, hfa⟩
    rcases hrow : lookupRow recs a cols with _ | vs2 <;> rw [hrow] at hfa
    · exact absurd hfa (by simp)
    · obtain ⟨rfl, rfl⟩ : a = d ∧ vs2 = vs := by simpa [Prod.ext_iff] using hfa
      exact ⟨ha, hrow⟩
  · rintro ⟨hd, hrow⟩
    exact ⟨d, hd, by rw [hrow]; rfl⟩

/-- Membership in the sorted column list. -/
theorem mem_sortedColsOf (recs : List LongRec) (c : String) :
    c ∈ sortedColsOf recs ↔ ∃ r ∈ recs, r.series_name = c := by
  unfold sortedColsOf
  rw [(List.perm_insertionSort _ _).mem_iff, List.mem_dedup, List.mem_map]

/-- C2: whenever the reshape step succeeds, the produced table has
every row fully populated (no missing value in any column), strictly
increasing unique dates, and unpivoting it recovers exactly the
original non-missing monthly observations of the retained dates. -/
theorem reshape_invariants (resp : ApiResponse) (t : PivotTable)
    (h : clean_and_process_data resp = .ok t) :
    (∀ row ∈ t.rows, row.2.length = t.cols.length) ∧
    (t.rows.map Prod.fst).Sorted (· < ·) ∧
    ∃ recs, typedRecords (buildAllData resp.series) = .ok recs ∧
      ∀ d c v, (d, c, v) ∈ unpivot t ↔
        (d ∈ t.rows.map Prod.fst ∧
          ∃ r ∈ recs, r.date = d ∧ r.series_name = c ∧ r.value = some v) := by
  unfold clean_and_process_data at h
  cases htr : typedRecords (buildAllData resp.series) <;> rw [htr] at h
  · exact absurd h (by simp [Except.bind])
  case ok recs =>
  replace h : pivotAndClean recs = .ok t := h
  by_cases hnd : (pivotKeys recs).Nodup
  · unfold pivotAndClean at h
    rw [if_pos hnd] at h
    obtain rfl := (Except.ok.inj h).symm
    refine ⟨?_, ?_, recs, rfl, ?_⟩
    · rintro ⟨d, vs⟩ hrow
      have hr := (mem_rows_iff recs (sortedColsOf recs) d vs).mp hrow
      simpa using lookupRow_length recs d (sortedColsOf recs) vs hr.2
    · show (((sortedDatesOf recs).filterMap fun d =>
        (lookupRow recs d (sortedColsOf recs)).map fun vs => (d, vs)).map
          Prod.fst).Sorted (· < ·)
      rw [rows_fst_eq_filter (sortedDatesOf recs)
        (fun d => lookupRow recs d (sortedColsOf recs))]
      exact List.Pairwise.sublist (List.filter_sublist _) (sortedDatesOf_sorted recs)
    · intro d c v
      unfold unpivot
      constructor
      · intro hm
        rw [List.mem_flatMap] at hm
        obtain ⟨⟨d0, vs⟩, hrow, hmem⟩ := hm
        rw [List.mem_map] at hmem
        obtain ⟨⟨c0, v0⟩, hcv, heq⟩ := hmem
        obtain ⟨rfl, rfl, rfl⟩ : d0 = d ∧ c0 = c ∧ v0 = v := by
          simpa [Prod.ext_iff] using heq
        have hr := (mem_rows_iff recs (sortedColsOf recs) d0 vs).mp hrow
        refine ⟨List.mem_map.mpr ⟨(d0, vs), hrow, rfl⟩, ?_⟩
        exact lookupCell_spec recs d0 c0 v0
          (lookupRow_zip_cell recs d0 (sortedColsOf recs) vs hr.2 c0 v0 hcv)
      · rintro ⟨hd, r, hr, rfl, rfl, hv⟩
        rw [List.mem_map] at hd
        obtain ⟨⟨d0, vs⟩, hrow, hfst⟩ := hd
        obtain rfl : d0 = r.date := hfst
        have hmem := (mem_rows_iff recs (sortedColsOf recs) r.date vs).mp hrow
        have hcell : lookupCell recs r.date r.series_name = some v := by
          rw [lookupCell_of_mem recs hnd r hr, hv]
        have hcol : r.series_name ∈ sortedColsOf recs :=
          (mem_sortedColsOf recs _).mpr ⟨r, hr, rfl⟩
        have hzip := lookupRow_cell_zip recs r.date (sortedColsOf recs) vs
          hmem.2 r.series_name v hcol hcell
        rw [List.mem_flatMap]
        exact ⟨(r.date, vs), hrow, List.mem_map.mpr ⟨(r.series_name, v), hzip, rfl⟩⟩
  · unfold pivotAndClean at h
    rw [if_neg hnd] at h
    exact absurd h (by simp)

/-- The table the reshape produces from the concrete valid payload. -/
def tableW : PivotTable :=
  { cols := ["Unemployment_Rate", "XXX"],
    rows := [(24289, [3, 3]), (24290, [7, 7])] }

/-- Witness for C2, at the concrete valid payload and its table. -/
theorem reshape_invariants_witness :
    (∀ row ∈ tableW.rows, row.2.length = tableW.cols.length) ∧
    (tableW.rows.map Prod.fst).Sorted (· < ·) ∧
    ∃ recs, typedRecords (buildAllData respW.series) = .ok recs ∧
      ∀ d c v, (d, c, v) ∈ unpivot tableW ↔
        (d ∈ tableW.rows.map Prod.fst ∧
          ∃ r ∈ recs, r.date = d ∧ r.series_name = c ∧ r.value = some v) :=
  reshape_invariants respW tableW (by with_unfolding_all rfl)

end LaborDash
